import Mathlib

/-!
Verification of the bond calculation engine of the bond-calculator API.

The repository contains two revisions of `BondsService`, both embedded here:

* `V1`: `calculateBond` keeps the yield-to-maturity in percent throughout
  (a supplied YTM is used as given; `calculateYTM` returns a percent), and
  its cashflow list is the date-oriented schedule
  (`generateCashflowSchedule`, a private method receiving precomputed
  `couponPayment` and `totalPeriods`).

* `V2`: `calculateBond` normalises the YTM to a fraction internally
  (a supplied percent is divided by 100; `calculateYTM` returns
  `ytm / 100`), multiplies by 100 on output, and its cashflow list is the
  typed present-value list (`generateCashflows`); the date-oriented
  schedule is a separate public method `generateCashflowSchedule (dto)`.

Numbers are embedded as exact rationals (`ℚ`).  JavaScript's
`Math.ceil` / `Math.floor` become `Int.ceil` / `Int.floor`; payment dates
are represented by their whole-month offset from the start date
(`setMonth(getMonth() + Math.floor(monthsPerPeriod * period))`), the start
date itself being invocation time and outside the embedded state.  The
truthiness test `providedYtm ? ... : ...` of the source is embedded
faithfully: an absent value and a supplied value equal to `0` both fall to
the computed branch.
-/

/-- The request payload (`BondCalculationDto`).  `V1` reads the
frequency slot under the alias `frequency`, `V2` under `couponFrequency`;
the field-alias middleware maps one onto the other, so a single field
models both. -/
structure BondCalculationDto where
  faceValue : ℚ
  couponRate : ℚ
  marketPrice : ℚ
  yearsToMaturity : ℚ
  couponFrequency : ℚ
  yieldToMaturity : Option ℚ
deriving DecidableEq

/-- The validation constraints of the DTO (class-validator decorators /
spec section 3): `faceValue ≥ 1`, `0.01 ≤ couponRate ≤ 100`,
`marketPrice ≥ 0.01`, `0.1 ≤ yearsToMaturity ≤ 100`,
`couponFrequency ∈ {1, 2, 4, 12}`, and, when supplied,
`0.01 ≤ yieldToMaturity ≤ 100`. -/
def ValidDto (d : BondCalculationDto) : Prop :=
  1 ≤ d.faceValue ∧
  1 / 100 ≤ d.couponRate ∧ d.couponRate ≤ 100 ∧
  1 / 100 ≤ d.marketPrice ∧
  1 / 10 ≤ d.yearsToMaturity ∧ d.yearsToMaturity ≤ 100 ∧
  (d.couponFrequency = 1 ∨ d.couponFrequency = 2 ∨
    d.couponFrequency = 4 ∨ d.couponFrequency = 12) ∧
  (∀ y, d.yieldToMaturity = some y → 1 / 100 ≤ y ∧ y ≤ 100)

/-- `periodicCouponRate = couponRate / 100 / couponFrequency` followed by
`couponPayment = faceValue * periodicCouponRate`. -/
def couponPaymentOf (d : BondCalculationDto) : ℚ :=
  d.faceValue * (d.couponRate / 100 / d.couponFrequency)

/-- `totalPeriods = Math.ceil(yearsToMaturity * couponFrequency)`. -/
def totalPeriodsOf (d : BondCalculationDto) : ℕ :=
  (⌈d.yearsToMaturity * d.couponFrequency⌉ : ℤ).toNat

/-- `annualCoupon = couponPayment * couponFrequency`. -/
def annualCouponOf (d : BondCalculationDto) : ℚ :=
  couponPaymentOf d * d.couponFrequency

namespace V1

/-- One row of the date-oriented schedule (`CashflowScheduleItemDto`);
`paymentMonthOffset` embeds the payment date as its month offset from the
start date. -/
structure CashflowScheduleItem where
  period : ℕ
  paymentMonthOffset : ℤ
  couponPayment : ℚ
  cumulativeInterest : ℚ
  remainingPrincipal : ℚ
deriving DecidableEq

/-- `BondCalculationResponseDto` of the first revision. -/
structure BondCalculationResponse where
  currentYield : ℚ
  yieldToMaturity : ℚ
  totalInterest : ℚ
  status : String
  cashflows : List CashflowScheduleItem
deriving DecidableEq

/-- `calculateYTM` of the first revision: the approximation formula,
returned in percent.  The frequency argument is unused in the source
(`_frequency`). -/
def calculateYTM (price faceValue couponRate years _frequency : ℚ) : ℚ :=
  let annualCoupon := faceValue * couponRate / 100
  ((annualCoupon + (faceValue - price) / years) / ((faceValue + price) / 2)) * 100

/-- The body of the `for (let period = 1; period <= totalPeriods; period++)`
loop of `generateCashflowSchedule`, as a countdown on the number of
remaining iterations, carrying the loop counter `period` and the mutable
accumulator `cumulativeInterest`. -/
def scheduleFrom (faceValue couponPayment monthsPerPeriod : ℚ) (totalPeriods : ℕ) :
    ℕ → ℕ → ℚ → List CashflowScheduleItem
  | 0, _, _ => []
  | remaining + 1, period, cum =>
      let cumulativeInterest := cum + couponPayment
      { period := period
        paymentMonthOffset := ⌊monthsPerPeriod * (period : ℚ)⌋
        couponPayment := couponPayment
        cumulativeInterest := cumulativeInterest
        remainingPrincipal := if period = totalPeriods then 0 else faceValue } ::
        scheduleFrom faceValue couponPayment monthsPerPeriod totalPeriods
          remaining (period + 1) cumulativeInterest

/-- `generateCashflowSchedule` of the first revision: `monthsPerPeriod =
12 / frequency`, then the loop over periods `1 .. totalPeriods` starting
from `cumulativeInterest = 0`. -/
def generateCashflowSchedule (faceValue couponPayment : ℚ) (totalPeriods : ℕ)
    (frequency : ℚ) : List CashflowScheduleItem :=
  scheduleFrom faceValue couponPayment (12 / frequency) totalPeriods totalPeriods 1 0

/-- `calculateBond` of the first revision. -/
def calculateBond (dto : BondCalculationDto) : BondCalculationResponse :=
  let couponPayment := couponPaymentOf dto
  let totalPeriods := totalPeriodsOf dto
  let annualCoupon := couponPayment * dto.couponFrequency
  let currentYield := annualCoupon / dto.marketPrice * 100
  let yieldToMaturity :=
    match dto.yieldToMaturity with
    | some providedYtm =>
        if providedYtm = 0 then
          calculateYTM dto.marketPrice dto.faceValue dto.couponRate
            dto.yearsToMaturity dto.couponFrequency
        else providedYtm
    | none =>
        calculateYTM dto.marketPrice dto.faceValue dto.couponRate
          dto.yearsToMaturity dto.couponFrequency
  { currentYield := currentYield
    yieldToMaturity := yieldToMaturity
    totalInterest := annualCoupon * dto.yearsToMaturity
    status :=
      if dto.marketPrice > dto.faceValue then "Premium"
      else if dto.marketPrice < dto.faceValue then "Discount"
      else "Par"
    cashflows := generateCashflowSchedule dto.faceValue couponPayment totalPeriods
      dto.couponFrequency }

end V1

namespace V2

/-- `CashflowType` of the second revision (`'coupon' | 'principal'`). -/
inductive CashflowType where
  | coupon
  | principal
deriving DecidableEq

/-- One element of the present-value cashflow list (`Cashflow`). -/
structure Cashflow where
  period : ℕ
  type : CashflowType
  amount : ℚ
  presentValue : ℚ
deriving DecidableEq

/-- One row of the date-oriented schedule (`CashflowRowDto`);
`paymentMonthOffset` embeds the payment date as its month offset from the
start date. -/
structure CashflowRow where
  period : ℕ
  paymentMonthOffset : ℤ
  couponPayment : ℚ
  cumulativeInterest : ℚ
  remainingPrincipal : ℚ
deriving DecidableEq

/-- `BondCalculationResponseDto` of the second revision. -/
structure BondCalculationResponse where
  currentYield : ℚ
  yieldToMaturity : ℚ
  totalInterest : ℚ
  status : String
  cashflows : List Cashflow
deriving DecidableEq

/-- `calculateYTM` of the second revision: the same approximation formula,
but returning `ytm / 100` ("as decimal for consistency"). -/
def calculateYTM (price faceValue couponRate years _frequency : ℚ) : ℚ :=
  let annualCoupon := faceValue * couponRate / 100
  let ytm := ((annualCoupon + (faceValue - price) / years) / ((faceValue + price) / 2)) * 100
  ytm / 100

/-- The fractional yield to maturity chosen inside `calculateBond`:
`providedYtm ? providedYtm / 100 : this.calculateYTM(...)`. -/
def yieldToMaturityFrac (dto : BondCalculationDto) : ℚ :=
  match dto.yieldToMaturity with
  | some providedYtm =>
      if providedYtm = 0 then
        calculateYTM dto.marketPrice dto.faceValue dto.couponRate
          dto.yearsToMaturity dto.couponFrequency
      else providedYtm / 100
  | none =>
      calculateYTM dto.marketPrice dto.faceValue dto.couponRate
        dto.yearsToMaturity dto.couponFrequency

/-- The periodic discount rate passed to `generateCashflows`:
`yieldToMaturity / couponFrequency` (fraction). -/
def periodicYtmOf (dto : BondCalculationDto) : ℚ :=
  yieldToMaturityFrac dto / dto.couponFrequency

/-- The body of the `for (let period = 1; period <= totalPeriods; period++)`
loop of `generateCashflows`, as a countdown on the number of remaining
iterations carrying the loop counter `period`. -/
def cashflowsFrom (faceValue couponPayment periodicYTM : ℚ) (totalPeriods : ℕ) :
    ℕ → ℕ → List Cashflow
  | 0, _ => []
  | remaining + 1, period =>
      (if period = totalPeriods then
        let amount := couponPayment + faceValue
        { period := period
          type := CashflowType.principal
          amount := amount
          presentValue := amount / (1 + periodicYTM) ^ period }
      else
        { period := period
          type := CashflowType.coupon
          amount := couponPayment
          presentValue := couponPayment / (1 + periodicYTM) ^ period }) ::
        cashflowsFrom faceValue couponPayment periodicYTM totalPeriods
          remaining (period + 1)

/-- `generateCashflows` of the second revision: the loop over periods
`1 .. totalPeriods`; the trailing frequency argument is unused by the
loop. -/
def generateCashflows (faceValue couponPayment : ℚ) (totalPeriods : ℕ)
    (periodicYTM _couponFrequency : ℚ) : List Cashflow :=
  cashflowsFrom faceValue couponPayment periodicYTM totalPeriods totalPeriods 1

/-- `calculateBond` of the second revision: the internal fractional YTM is
multiplied by 100 on output. -/
def calculateBond (dto : BondCalculationDto) : BondCalculationResponse :=
  let couponPayment := couponPaymentOf dto
  let totalPeriods := totalPeriodsOf dto
  let annualCoupon := couponPayment * dto.couponFrequency
  let currentYield := annualCoupon / dto.marketPrice * 100
  let yieldToMaturity := yieldToMaturityFrac dto
  { currentYield := currentYield
    yieldToMaturity := yieldToMaturity * 100
    totalInterest := annualCoupon * dto.yearsToMaturity
    status :=
      if dto.marketPrice > dto.faceValue then "Premium"
      else if dto.marketPrice < dto.faceValue then "Discount"
      else "Par"
    cashflows := generateCashflows dto.faceValue couponPayment totalPeriods
      (yieldToMaturity / dto.couponFrequency) dto.couponFrequency }

/-- The body of the schedule loop of the second revision's public
`generateCashflowSchedule` — textually the same loop as the first
revision's. -/
def scheduleFrom (faceValue couponPayment monthsPerPeriod : ℚ) (totalPeriods : ℕ) :
    ℕ → ℕ → ℚ → List CashflowRow
  | 0, _, _ => []
  | remaining + 1, period, cum =>
      let cumulativeInterest := cum + couponPayment
      { period := period
        paymentMonthOffset := ⌊monthsPerPeriod * (period : ℚ)⌋
        couponPayment := couponPayment
        cumulativeInterest := cumulativeInterest
        remainingPrincipal := if period = totalPeriods then 0 else faceValue } ::
        scheduleFrom faceValue couponPayment monthsPerPeriod totalPeriods
          remaining (period + 1) cumulativeInterest

/-- `generateCashflowSchedule (dto)` of the second revision: recomputes
`couponPayment` and `totalPeriods` from the DTO, then runs the schedule
loop with `monthsPerPeriod = 12 / couponFrequency`. -/
def generateCashflowSchedule (dto : BondCalculationDto) : List CashflowRow :=
  scheduleFrom dto.faceValue (couponPaymentOf dto) (12 / dto.couponFrequency)
    (totalPeriodsOf dto) (totalPeriodsOf dto) 1 0

end V2

/-- Closed form of the first revision's schedule loop: starting at loop
counter `p` with accumulator `c` and `r` iterations left, it emits one row
per iteration, with the accumulator advanced by `couponPayment` each
time. -/
theorem V1.scheduleFrom_eq_map (F cp m : ℚ) (tp : ℕ) :
    ∀ (r p : ℕ) (c : ℚ),
      V1.scheduleFrom F cp m tp r p c =
        (List.range r).map (fun i =>
          { period := p + i
            paymentMonthOffset := ⌊m * (((p + i : ℕ)) : ℚ)⌋
            couponPayment := cp
            cumulativeInterest := c + cp * ((i : ℚ) + 1)
            remainingPrincipal := if p + i = tp then 0 else F }) := by
  intro r
  induction r with
  | zero => intro p c; rfl
  | succ n ih =>
    intro p c
    rw [List.range_succ_eq_map, List.map_cons, List.map_map]
    simp only [V1.scheduleFrom]
    congr 1
    · first
      | rfl
      | simp
    · rw [ih (p + 1) (c + cp)]
      apply List.map_congr_left
      intro i _
      have hpi : p + (i + 1) = p + 1 + i := by omega
      simp only [Function.comp_apply, Nat.succ_eq_add_one, hpi,
        V1.CashflowScheduleItem.mk.injEq, true_and, and_true]
      push_cast
      ring

/-- Closed form of the second revision's schedule loop (the same loop as
the first revision's, emitting `CashflowRow`s). -/
theorem V2.scheduleFromV2_eq_map (F cp m : ℚ) (tp : ℕ) :
    ∀ (r p : ℕ) (c : ℚ),
      V2.scheduleFrom F cp m tp r p c =
        (List.range r).map (fun i =>
          { period := p + i
            paymentMonthOffset := ⌊m * (((p + i : ℕ)) : ℚ)⌋
            couponPayment := cp
            cumulativeInterest := c + cp * ((i : ℚ) + 1)
            remainingPrincipal := if p + i = tp then 0 else F }) := by
  intro r
  induction r with
  | zero => intro p c; rfl
  | succ n ih =>
    intro p c
    rw [List.range_succ_eq_map, List.map_cons, List.map_map]
    simp only [V2.scheduleFrom]
    congr 1
    · first
      | rfl
      | simp
    · rw [ih (p + 1) (c + cp)]
      apply List.map_congr_left
      intro i _
      have hpi : p + (i + 1) = p + 1 + i := by omega
      simp only [Function.comp_apply, Nat.succ_eq_add_one, hpi,
        V2.CashflowRow.mk.injEq, true_and, and_true]
      push_cast
      ring

/-- Closed form of the present-value cashflow loop. -/
theorem V2.cashflowsFrom_eq_map (F cp y : ℚ) (tp : ℕ) :
    ∀ (r p : ℕ),
      V2.cashflowsFrom F cp y tp r p =
        (List.range r).map (fun i =>
          if p + i = tp then
            { period := p + i
              type := V2.CashflowType.principal
              amount := cp + F
              presentValue := (cp + F) / (1 + y) ^ (p + i) }
          else
            { period := p + i
              type := V2.CashflowType.coupon
              amount := cp
              presentValue := cp / (1 + y) ^ (p + i) }) := by
  intro r
  induction r with
  | zero => intro p; rfl
  | succ n ih =>
    intro p
    rw [List.range_succ_eq_map, List.map_cons, List.map_map]
    simp only [V2.cashflowsFrom]
    congr 1
    rw [ih (p + 1)]
    apply List.map_congr_left
    intro i _
    have hpi : p + (i + 1) = p + 1 + i := by omega
    simp only [Function.comp_apply, Nat.succ_eq_add_one, hpi]

theorem ValidDto.faceValue_pos {d : BondCalculationDto} (h : ValidDto d) :
    0 < d.faceValue := lt_of_lt_of_le one_pos h.1

theorem ValidDto.marketPrice_pos {d : BondCalculationDto} (h : ValidDto d) :
    0 < d.marketPrice := lt_of_lt_of_le (by norm_num) h.2.2.2.1

theorem ValidDto.years_pos {d : BondCalculationDto} (h : ValidDto d) :
    0 < d.yearsToMaturity := lt_of_lt_of_le (by norm_num) h.2.2.2.2.1

theorem ValidDto.couponRate_pos {d : BondCalculationDto} (h : ValidDto d) :
    0 < d.couponRate := lt_of_lt_of_le (by norm_num) h.2.1

theorem ValidDto.freq_pos {d : BondCalculationDto} (h : ValidDto d) :
    0 < d.couponFrequency := by
  rcases h.2.2.2.2.2.2.1 with hf | hf | hf | hf <;> rw [hf] <;> norm_num

theorem ValidDto.freq_le {d : BondCalculationDto} (h : ValidDto d) :
    d.couponFrequency ≤ 12 := by
  rcases h.2.2.2.2.2.2.1 with hf | hf | hf | hf <;> rw [hf] <;> norm_num

theorem ValidDto.couponPayment_pos {d : BondCalculationDto} (h : ValidDto d) :
    0 < couponPaymentOf d := by
  have hf := h.freq_pos
  have hc := h.couponRate_pos
  have hF := h.faceValue_pos
  rw [couponPaymentOf]
  positivity

theorem ValidDto.totalPeriods_pos {d : BondCalculationDto} (h : ValidDto d) :
    0 < totalPeriodsOf d := by
  have hy := h.years_pos
  have hf := h.freq_pos
  have hceil : (0 : ℤ) < ⌈d.yearsToMaturity * d.couponFrequency⌉ :=
    Int.ceil_pos.mpr (mul_pos hy hf)
  rw [totalPeriodsOf]
  omega

theorem V1.calculateBond_currentYield (d : BondCalculationDto) :
    (V1.calculateBond d).currentYield =
      couponPaymentOf d * d.couponFrequency / d.marketPrice * 100 := rfl

theorem V1.calculateBond_totalInterest (d : BondCalculationDto) :
    (V1.calculateBond d).totalInterest =
      couponPaymentOf d * d.couponFrequency * d.yearsToMaturity := rfl

theorem V1.calculateBond_status (d : BondCalculationDto) :
    (V1.calculateBond d).status =
      if d.marketPrice > d.faceValue then "Premium"
      else if d.marketPrice < d.faceValue then "Discount"
      else "Par" := rfl

theorem V1.calculateBond_cashflows (d : BondCalculationDto) :
    (V1.calculateBond d).cashflows =
      V1.generateCashflowSchedule d.faceValue (couponPaymentOf d) (totalPeriodsOf d)
        d.couponFrequency := rfl

theorem V1.calculateBond_ytm_of_none {d : BondCalculationDto}
    (h : d.yieldToMaturity = none) :
    (V1.calculateBond d).yieldToMaturity =
      V1.calculateYTM d.marketPrice d.faceValue d.couponRate d.yearsToMaturity
        d.couponFrequency := by
  simp only [V1.calculateBond, h]

theorem V1.calculateBond_ytm_of_some {d : BondCalculationDto} {y : ℚ}
    (h : d.yieldToMaturity = some y) (hy : y ≠ 0) :
    (V1.calculateBond d).yieldToMaturity = y := by
  simp only [V1.calculateBond, h, if_neg hy]

theorem V2.calculateBondV2_currentYield (d : BondCalculationDto) :
    (V2.calculateBond d).currentYield =
      couponPaymentOf d * d.couponFrequency / d.marketPrice * 100 := rfl

theorem V2.calculateBondV2_totalInterest (d : BondCalculationDto) :
    (V2.calculateBond d).totalInterest =
      couponPaymentOf d * d.couponFrequency * d.yearsToMaturity := rfl

theorem V2.calculateBond_ytm (d : BondCalculationDto) :
    (V2.calculateBond d).yieldToMaturity = V2.yieldToMaturityFrac d * 100 := rfl

theorem V2.calculateBondV2_cashflows (d : BondCalculationDto) :
    (V2.calculateBond d).cashflows =
      V2.generateCashflows d.faceValue (couponPaymentOf d) (totalPeriodsOf d)
        (V2.yieldToMaturityFrac d / d.couponFrequency) d.couponFrequency := rfl

/-- The discount-bond scenario of spec section 8
(`faceValue=1000, couponRate=5, marketPrice=950, yearsToMaturity=5,
couponFrequency=1`). -/
def dtoDiscount : BondCalculationDto := ⟨1000, 5, 950, 5, 1, none⟩

/-- The discount-bond scenario with a supplied YTM of 6 percent. -/
def dtoSupplied : BondCalculationDto := ⟨1000, 5, 950, 5, 1, some 6⟩

/-- The par-bond scenario of spec section 8 (`marketPrice = faceValue`). -/
def dtoPar : BondCalculationDto := ⟨1000, 5, 1000, 5, 2, none⟩

theorem dtoDiscount_valid : ValidDto dtoDiscount := by
  refine ⟨by norm_num [dtoDiscount], by norm_num [dtoDiscount], by norm_num [dtoDiscount],
    by norm_num [dtoDiscount], by norm_num [dtoDiscount], by norm_num [dtoDiscount],
    by norm_num [dtoDiscount], ?_⟩
  intro y hy
  exact absurd hy (by simp [dtoDiscount])

theorem dtoSupplied_valid : ValidDto dtoSupplied := by
  refine ⟨by norm_num [dtoSupplied], by norm_num [dtoSupplied], by norm_num [dtoSupplied],
    by norm_num [dtoSupplied], by norm_num [dtoSupplied], by norm_num [dtoSupplied],
    by norm_num [dtoSupplied], ?_⟩
  intro y hy
  simp only [dtoSupplied, Option.some.injEq] at hy
  rw [← hy]
  norm_num

theorem dtoPar_valid : ValidDto dtoPar := by
  refine ⟨by norm_num [dtoPar], by norm_num [dtoPar], by norm_num [dtoPar],
    by norm_num [dtoPar], by norm_num [dtoPar], by norm_num [dtoPar],
    by norm_num [dtoPar], ?_⟩
  intro y hy
  exact absurd hy (by simp [dtoPar])

/-- **C8.** For every valid input, `calculateBond` returns status `"Par"`
iff `marketPrice = faceValue`, `"Premium"` iff `marketPrice > faceValue`,
`"Discount"` iff `marketPrice < faceValue`, and no other status value is
produced; the second revision computes the same status. -/
theorem C8_status_trichotomy (d : BondCalculationDto) (h : ValidDto d) :
    ((V1.calculateBond d).status = "Par" ↔ d.marketPrice = d.faceValue) ∧
    ((V1.calculateBond d).status = "Premium" ↔ d.marketPrice > d.faceValue) ∧
    ((V1.calculateBond d).status = "Discount" ↔ d.marketPrice < d.faceValue) ∧
    ((V1.calculateBond d).status = "Par" ∨ (V1.calculateBond d).status = "Premium" ∨
      (V1.calculateBond d).status = "Discount") ∧
    (V2.calculateBond d).status = (V1.calculateBond d).status := by
  have hs : (V1.calculateBond d).status =
      if d.marketPrice > d.faceValue then "Premium"
      else if d.marketPrice < d.faceValue then "Discount" else "Par" := rfl
  have hs2 : (V2.calculateBond d).status =
      if d.marketPrice > d.faceValue then "Premium"
      else if d.marketPrice < d.faceValue then "Discount" else "Par" := rfl
  rcases lt_trichotomy d.marketPrice d.faceValue with hlt | heq | hgt
  · have h1 : ¬ d.marketPrice > d.faceValue := not_lt.mpr hlt.le
    simp only [hs, hs2, if_neg h1, if_pos hlt]
    exact ⟨iff_of_false (by decide) hlt.ne,
      iff_of_false (by decide) h1,
      iff_of_true trivial hlt,
      Or.inr (Or.inr trivial), trivial⟩
  · have h1 : ¬ d.marketPrice > d.faceValue := by rw [heq]; exact lt_irrefl _
    have h2 : ¬ d.marketPrice < d.faceValue := by rw [heq]; exact lt_irrefl _
    simp only [hs, hs2, if_neg h1, if_neg h2]
    exact ⟨iff_of_true trivial heq,
      iff_of_false (by decide) h1,
      iff_of_false (by decide) h2,
      Or.inl trivial, trivial⟩
  · have h2 : ¬ d.marketPrice < d.faceValue := not_lt.mpr hgt.le
    simp only [hs, hs2, if_pos hgt]
    exact ⟨iff_of_false (by decide) hgt.ne.symm,
      iff_of_true trivial hgt,
      iff_of_false (by decide) h2,
      Or.inr (Or.inl trivial), trivial⟩

theorem C8_status_trichotomy_witness :
    (V1.calculateBond dtoDiscount).status = "Discount" :=
  ((C8_status_trichotomy dtoDiscount dtoDiscount_valid).2.2.1).mpr
    (by norm_num [dtoDiscount])

/-- **C5.** For every valid input with no yieldToMaturity supplied, the
returned YTM is the single-pass closed-form value
`((annualCoupon + (faceValue − marketPrice)/yearsToMaturity) /
((faceValue + marketPrice)/2)) × 100` with
`annualCoupon = faceValue × couponRate / 100`, in both revisions. -/
theorem C5_ytm_closed_form (d : BondCalculationDto) (h : ValidDto d)
    (hn : d.yieldToMaturity = none) :
    (V1.calculateBond d).yieldToMaturity =
      ((d.faceValue * d.couponRate / 100 +
          (d.faceValue - d.marketPrice) / d.yearsToMaturity) /
        ((d.faceValue + d.marketPrice) / 2)) * 100 ∧
    (V2.calculateBond d).yieldToMaturity =
      ((d.faceValue * d.couponRate / 100 +
          (d.faceValue - d.marketPrice) / d.yearsToMaturity) /
        ((d.faceValue + d.marketPrice) / 2)) * 100 := by
  constructor
  · rw [V1.calculateBond_ytm_of_none hn]
    rfl
  · rw [V2.calculateBond_ytm]
    simp only [V2.yieldToMaturityFrac, hn, V2.calculateYTM]
    ring

theorem C5_ytm_closed_form_witness :
    (V1.calculateBond dtoDiscount).yieldToMaturity =
      ((dtoDiscount.faceValue * dtoDiscount.couponRate / 100 +
          (dtoDiscount.faceValue - dtoDiscount.marketPrice) / dtoDiscount.yearsToMaturity) /
        ((dtoDiscount.faceValue + dtoDiscount.marketPrice) / 2)) * 100 ∧
    (V2.calculateBond dtoDiscount).yieldToMaturity =
      ((dtoDiscount.faceValue * dtoDiscount.couponRate / 100 +
          (dtoDiscount.faceValue - dtoDiscount.marketPrice) / dtoDiscount.yearsToMaturity) /
        ((dtoDiscount.faceValue + dtoDiscount.marketPrice) / 2)) * 100 :=
  C5_ytm_closed_form dtoDiscount dtoDiscount_valid rfl

/-- **C7.** For every valid par-bond input (`marketPrice = faceValue`) with
no yieldToMaturity supplied, the returned YTM equals `couponRate` exactly
(rational arithmetic), in both revisions. -/
theorem C7_par_ytm_eq_couponRate (d : BondCalculationDto) (h : ValidDto d)
    (hpar : d.marketPrice = d.faceValue) (hn : d.yieldToMaturity = none) :
    (V1.calculateBond d).yieldToMaturity = d.couponRate ∧
    (V2.calculateBond d).yieldToMaturity = d.couponRate := by
  have hF : d.faceValue ≠ 0 := ne_of_gt h.faceValue_pos
  have hY : d.yearsToMaturity ≠ 0 := ne_of_gt h.years_pos
  constructor
  · rw [V1.calculateBond_ytm_of_none hn]
    simp only [V1.calculateYTM, hpar]
    field_simp
    ring
  · rw [V2.calculateBond_ytm]
    simp only [V2.yieldToMaturityFrac, hn, V2.calculateYTM, hpar]
    field_simp
    ring

theorem C7_par_ytm_eq_couponRate_witness :
    (V1.calculateBond dtoPar).yieldToMaturity = dtoPar.couponRate ∧
    (V2.calculateBond dtoPar).yieldToMaturity = dtoPar.couponRate :=
  C7_par_ytm_eq_couponRate dtoPar dtoPar_valid rfl rfl

/-- **C4.** For every valid input with a supplied yieldToMaturity, the
returned YTM equals the supplied value unchanged — both in the revision
that uses it as given and in the one that divides by 100 internally and
multiplies by 100 on output. -/
theorem C4_supplied_ytm_unchanged (d : BondCalculationDto) (h : ValidDto d)
    (y : ℚ) (hy : d.yieldToMaturity = some y) :
    (V1.calculateBond d).yieldToMaturity = y ∧
    (V2.calculateBond d).yieldToMaturity = y := by
  have hy0 : y ≠ 0 := by
    have hrange := (h.2.2.2.2.2.2.2 y hy).1
    intro h0
    rw [h0] at hrange
    norm_num at hrange
  constructor
  · exact V1.calculateBond_ytm_of_some hy hy0
  · rw [V2.calculateBond_ytm]
    simp only [V2.yieldToMaturityFrac, hy, if_neg hy0]
    ring

theorem C4_supplied_ytm_unchanged_witness :
    (V1.calculateBond dtoSupplied).yieldToMaturity = 6 ∧
    (V2.calculateBond dtoSupplied).yieldToMaturity = 6 :=
  C4_supplied_ytm_unchanged dtoSupplied dtoSupplied_valid 6 rfl

theorem V1.schedule_length (F cp f : ℚ) (n : ℕ) :
    (V1.generateCashflowSchedule F cp n f).length = n := by
  simp [V1.generateCashflowSchedule, V1.scheduleFrom_eq_map]

theorem V2.scheduleV2_length (d : BondCalculationDto) :
    (V2.generateCashflowSchedule d).length = totalPeriodsOf d := by
  simp [V2.generateCashflowSchedule, V2.scheduleFromV2_eq_map]

theorem V2.cashflows_length (F cp y f : ℚ) (n : ℕ) :
    (V2.generateCashflows F cp n y f).length = n := by
  simp [V2.generateCashflows, V2.cashflowsFrom_eq_map]

theorem V1.schedule_get (F cp f : ℚ) (n i : ℕ)
    (hi : i < (V1.generateCashflowSchedule F cp n f).length) :
    (V1.generateCashflowSchedule F cp n f).get ⟨i, hi⟩ =
      { period := 1 + i
        paymentMonthOffset := ⌊12 / f * (((1 + i : ℕ)) : ℚ)⌋
        couponPayment := cp
        cumulativeInterest := 0 + cp * ((i : ℚ) + 1)
        remainingPrincipal := if 1 + i = n then 0 else F } := by
  have hn : i < n := by
    have := hi
    rwa [V1.schedule_length] at this
  simp [V1.generateCashflowSchedule, V1.scheduleFrom_eq_map, List.get_eq_getElem]

theorem V2.scheduleV2_get (d : BondCalculationDto) (i : ℕ)
    (hi : i < (V2.generateCashflowSchedule d).length) :
    (V2.generateCashflowSchedule d).get ⟨i, hi⟩ =
      { period := 1 + i
        paymentMonthOffset := ⌊12 / d.couponFrequency * (((1 + i : ℕ)) : ℚ)⌋
        couponPayment := couponPaymentOf d
        cumulativeInterest := 0 + couponPaymentOf d * ((i : ℚ) + 1)
        remainingPrincipal := if 1 + i = totalPeriodsOf d then 0 else d.faceValue } := by
  simp [V2.generateCashflowSchedule, V2.scheduleFromV2_eq_map, List.get_eq_getElem]

theorem V2.cashflows_get (F cp y f : ℚ) (n i : ℕ)
    (hi : i < (V2.generateCashflows F cp n y f).length) :
    (V2.generateCashflows F cp n y f).get ⟨i, hi⟩ =
      (if 1 + i = n then
        { period := 1 + i
          type := V2.CashflowType.principal
          amount := cp + F
          presentValue := (cp + F) / (1 + y) ^ (1 + i) }
      else
        { period := 1 + i
          type := V2.CashflowType.coupon
          amount := cp
          presentValue := cp / (1 + y) ^ (1 + i) }) := by
  simp [V2.generateCashflows, V2.cashflowsFrom_eq_map, List.get_eq_getElem]

theorem totalPeriodsOf_cast {d : BondCalculationDto} (h : ValidDto d) :
    (totalPeriodsOf d : ℤ) = ⌈d.yearsToMaturity * d.couponFrequency⌉ := by
  rw [totalPeriodsOf, Int.toNat_of_nonneg]
  exact le_of_lt (Int.ceil_pos.mpr (mul_pos h.years_pos h.freq_pos))

/-- **C3.** For every valid input, the cashflow/schedule sequences returned
by both revisions' `calculateBond` and by `generateCashflowSchedule` have
exactly `⌈yearsToMaturity × couponFrequency⌉` elements, and the `period`
field of the element at 0-based index `i` is `i + 1` — sequential from 1
with no gaps. -/
theorem C3_period_count_sequential (d : BondCalculationDto) (h : ValidDto d) :
    (((V1.calculateBond d).cashflows.length : ℤ) =
        ⌈d.yearsToMaturity * d.couponFrequency⌉) ∧
    (((V2.calculateBond d).cashflows.length : ℤ) =
        ⌈d.yearsToMaturity * d.couponFrequency⌉) ∧
    (((V2.generateCashflowSchedule d).length : ℤ) =
        ⌈d.yearsToMaturity * d.couponFrequency⌉) ∧
    (∀ i, ∀ hi : i < (V1.calculateBond d).cashflows.length,
      ((V1.calculateBond d).cashflows.get ⟨i, hi⟩).period = i + 1) ∧
    (∀ i, ∀ hi : i < (V2.calculateBond d).cashflows.length,
      ((V2.calculateBond d).cashflows.get ⟨i, hi⟩).period = i + 1) ∧
    (∀ i, ∀ hi : i < (V2.generateCashflowSchedule d).length,
      ((V2.generateCashflowSchedule d).get ⟨i, hi⟩).period = i + 1) := by
  refine ⟨?_, ?_, ?_, ?_, ?_, ?_⟩
  · rw [V1.calculateBond_cashflows, V1.schedule_length, totalPeriodsOf_cast h]
  · rw [V2.calculateBondV2_cashflows, V2.cashflows_length, totalPeriodsOf_cast h]
  · rw [V2.scheduleV2_length, totalPeriodsOf_cast h]
  · intro i hi
    have hg := V1.schedule_get d.faceValue (couponPaymentOf d) d.couponFrequency
      (totalPeriodsOf d) i (by rwa [V1.calculateBond_cashflows] at hi)
    have hcf : (V1.calculateBond d).cashflows.get ⟨i, hi⟩ =
        (V1.generateCashflowSchedule d.faceValue (couponPaymentOf d) (totalPeriodsOf d)
          d.couponFrequency).get ⟨i, by rwa [V1.calculateBond_cashflows] at hi⟩ := rfl
    rw [hcf, hg]
    simp [Nat.add_comm]
  · intro i hi
    have hi2 : i < (V2.generateCashflows d.faceValue (couponPaymentOf d) (totalPeriodsOf d)
        (V2.yieldToMaturityFrac d / d.couponFrequency) d.couponFrequency).length := by
      rwa [V2.calculateBondV2_cashflows] at hi
    have hg := V2.cashflows_get d.faceValue (couponPaymentOf d)
      (V2.yieldToMaturityFrac d / d.couponFrequency) d.couponFrequency (totalPeriodsOf d) i hi2
    have hcf : (V2.calculateBond d).cashflows.get ⟨i, hi⟩ =
        (V2.generateCashflows d.faceValue (couponPaymentOf d) (totalPeriodsOf d)
          (V2.yieldToMaturityFrac d / d.couponFrequency) d.couponFrequency).get ⟨i, hi2⟩ := rfl
    rw [hcf, hg]
    by_cases hlast : 1 + i = totalPeriodsOf d
    · rw [if_pos hlast]
      simp [Nat.add_comm]
    · rw [if_neg hlast]
      simp [Nat.add_comm]
  · intro i hi
    rw [V2.scheduleV2_get d i hi]
    simp [Nat.add_comm]

theorem C3_period_count_sequential_witness :
    (((V1.calculateBond dtoDiscount).cashflows.length : ℤ) =
        ⌈dtoDiscount.yearsToMaturity * dtoDiscount.couponFrequency⌉) ∧
    (((V2.calculateBond dtoDiscount).cashflows.length : ℤ) =
        ⌈dtoDiscount.yearsToMaturity * dtoDiscount.couponFrequency⌉) ∧
    (((V2.generateCashflowSchedule dtoDiscount).length : ℤ) =
        ⌈dtoDiscount.yearsToMaturity * dtoDiscount.couponFrequency⌉) ∧
    (∀ i, ∀ hi : i < (V1.calculateBond dtoDiscount).cashflows.length,
      ((V1.calculateBond dtoDiscount).cashflows.get ⟨i, hi⟩).period = i + 1) ∧
    (∀ i, ∀ hi : i < (V2.calculateBond dtoDiscount).cashflows.length,
      ((V2.calculateBond dtoDiscount).cashflows.get ⟨i, hi⟩).period = i + 1) ∧
    (∀ i, ∀ hi : i < (V2.generateCashflowSchedule dtoDiscount).length,
      ((V2.generateCashflowSchedule dtoDiscount).get ⟨i, hi⟩).period = i + 1) :=
  C3_period_count_sequential dtoDiscount dtoDiscount_valid

/-- A sub-period maturity: `yearsToMaturity × couponFrequency = 1/2`,
which rounds up to one full period. -/
def dtoHalfYear : BondCalculationDto := ⟨1000, 5, 950, 1/2, 1, none⟩

theorem dtoHalfYear_valid : ValidDto dtoHalfYear := by
  refine ⟨by norm_num [dtoHalfYear], by norm_num [dtoHalfYear], by norm_num [dtoHalfYear],
    by norm_num [dtoHalfYear], by norm_num [dtoHalfYear], by norm_num [dtoHalfYear],
    by norm_num [dtoHalfYear], ?_⟩
  intro y hy
  exact absurd hy (by simp [dtoHalfYear])

theorem dtoHalfYear_totalPeriods : totalPeriodsOf dtoHalfYear = 1 := by
  rw [totalPeriodsOf]
  have hceil : (⌈dtoHalfYear.yearsToMaturity * dtoHalfYear.couponFrequency⌉ : ℤ) = 1 := by
    rw [show dtoHalfYear.yearsToMaturity * dtoHalfYear.couponFrequency = 1/2 by
      norm_num [dtoHalfYear]]
    rw [Int.ceil_eq_iff]
    norm_num
  rw [hceil]
  rfl

theorem getLast?_map_range {α : Type} (f : ℕ → α) (n : ℕ) (hn : 0 < n) :
    ((List.range n).map f).getLast? = some (f (n - 1)) := by
  obtain ⟨m, rfl⟩ : ∃ m, n = m + 1 := ⟨n - 1, by omega⟩
  rw [List.range_succ, List.map_append]
  simp

/-- **C1 (counterexample).** At the valid input `faceValue = 1000,
couponRate = 5, marketPrice = 950, yearsToMaturity = 1/2,
couponFrequency = 1`, the single schedule row has `cumulativeInterest = 50`
while `totalInterest = 25`: the last row's cumulative interest does not
equal `totalInterest`. -/
theorem C1_last_cumulative_counterexample :
    ValidDto dtoHalfYear ∧
    (V1.calculateBond dtoHalfYear).cashflows.getLast? =
      some { period := 1, paymentMonthOffset := 12, couponPayment := 50,
             cumulativeInterest := 50, remainingPrincipal := 0 } ∧
    (V1.calculateBond dtoHalfYear).totalInterest = 25 ∧
    (50 : ℚ) ≠ 25 := by
  refine ⟨dtoHalfYear_valid, ?_, ?_, by norm_num⟩
  · rw [V1.calculateBond_cashflows, dtoHalfYear_totalPeriods]
    simp only [V1.generateCashflowSchedule, V1.scheduleFrom_eq_map]
    rw [getLast?_map_range _ _ one_pos]
    norm_num [couponPaymentOf, dtoHalfYear]
  · rw [V1.calculateBond_totalInterest]
    norm_num [couponPaymentOf, dtoHalfYear]

/-- **C1 (amended).** For every valid input, the last schedule row exists
and its `cumulativeInterest` is `couponPayment × ceil(yearsToMaturity ×
couponFrequency)` (the second revision's date schedule accumulates the
same value), and it equals the result's `totalInterest` exactly when
`yearsToMaturity × couponFrequency` is an integer
(`yearsToMaturity × couponFrequency = ⌈yearsToMaturity × couponFrequency⌉`);
for non-integer products it differs. -/
theorem C1_last_cumulative_amended (d : BondCalculationDto) (h : ValidDto d) :
    ∃ r : V1.CashflowScheduleItem,
      (V1.calculateBond d).cashflows.getLast? = some r ∧
      r.cumulativeInterest = couponPaymentOf d * (totalPeriodsOf d : ℚ) ∧
      ((V2.generateCashflowSchedule d).map
          (fun x => x.cumulativeInterest)).getLast? = some r.cumulativeInterest ∧
      (r.cumulativeInterest = (V1.calculateBond d).totalInterest ↔
        d.yearsToMaturity * d.couponFrequency =
          (⌈d.yearsToMaturity * d.couponFrequency⌉ : ℚ)) := by
  have hn : 0 < totalPeriodsOf d := h.totalPeriods_pos
  have hcast : ((totalPeriodsOf d - 1 : ℕ) : ℚ) + 1 = (totalPeriodsOf d : ℚ) := by
    rw [Nat.cast_sub (by omega)]
    push_cast
    ring
  rw [V1.calculateBond_cashflows]
  simp only [V1.generateCashflowSchedule, V1.scheduleFrom_eq_map]
  rw [getLast?_map_range _ _ hn]
  refine ⟨_, rfl, ?_, ?_, ?_⟩
  · simp only
    rw [hcast]
    ring
  · simp only [V2.generateCashflowSchedule, V2.scheduleFromV2_eq_map, List.map_map]
    rw [getLast?_map_range _ _ hn]
    rfl
  · simp only [V1.calculateBond_totalInterest]
    have hcp : couponPaymentOf d ≠ 0 := ne_of_gt h.couponPayment_pos
    have hTI : couponPaymentOf d * d.couponFrequency * d.yearsToMaturity =
        couponPaymentOf d * (d.yearsToMaturity * d.couponFrequency) := by ring
    have hTPQ : ((totalPeriodsOf d : ℚ)) =
        ((⌈d.yearsToMaturity * d.couponFrequency⌉ : ℤ) : ℚ) := by
      rw [← totalPeriodsOf_cast h]
      push_cast
      ring
    rw [hTI, hcast, hTPQ, zero_add, mul_right_inj' hcp]
    exact eq_comm

theorem C1_last_cumulative_amended_witness :
    ∃ r : V1.CashflowScheduleItem,
      (V1.calculateBond dtoDiscount).cashflows.getLast? = some r ∧
      r.cumulativeInterest = couponPaymentOf dtoDiscount * (totalPeriodsOf dtoDiscount : ℚ) ∧
      ((V2.generateCashflowSchedule dtoDiscount).map
          (fun x => x.cumulativeInterest)).getLast? = some r.cumulativeInterest ∧
      (r.cumulativeInterest = (V1.calculateBond dtoDiscount).totalInterest ↔
        dtoDiscount.yearsToMaturity * dtoDiscount.couponFrequency =
          (⌈dtoDiscount.yearsToMaturity * dtoDiscount.couponFrequency⌉ : ℚ)) :=
  C1_last_cumulative_amended dtoDiscount dtoDiscount_valid

/-- A deep-discount, long-maturity bond: `marketPrice < faceValue` yet the
approximation YTM is below the current yield. -/
def dtoDeepDiscount : BondCalculationDto := ⟨1000, 5, 500, 50, 1, none⟩

theorem dtoDeepDiscount_valid : ValidDto dtoDeepDiscount := by
  refine ⟨by norm_num [dtoDeepDiscount], by norm_num [dtoDeepDiscount],
    by norm_num [dtoDeepDiscount], by norm_num [dtoDeepDiscount],
    by norm_num [dtoDeepDiscount], by norm_num [dtoDeepDiscount],
    by norm_num [dtoDeepDiscount], ?_⟩
  intro y hy
  exact absurd hy (by simp [dtoDeepDiscount])

/-- **C2 (counterexample).** At the valid input `faceValue = 1000,
couponRate = 5, marketPrice = 500, yearsToMaturity = 50,
couponFrequency = 1` (a discount bond, no YTM supplied), the computed YTM
is `8` while the current yield is `10`: the claimed direction
`YTM > currentYield` for discount bonds fails. -/
theorem C2_direction_counterexample :
    ValidDto dtoDeepDiscount ∧
    dtoDeepDiscount.marketPrice < dtoDeepDiscount.faceValue ∧
    dtoDeepDiscount.yieldToMaturity = none ∧
    (V1.calculateBond dtoDeepDiscount).yieldToMaturity = 8 ∧
    (V1.calculateBond dtoDeepDiscount).currentYield = 10 ∧
    ¬ (V1.calculateBond dtoDeepDiscount).yieldToMaturity >
        (V1.calculateBond dtoDeepDiscount).currentYield := by
  have hy : (V1.calculateBond dtoDeepDiscount).yieldToMaturity = 8 := by
    rw [V1.calculateBond_ytm_of_none rfl]
    simp only [V1.calculateYTM]
    norm_num [dtoDeepDiscount]
  have hc : (V1.calculateBond dtoDeepDiscount).currentYield = 10 := by
    rw [V1.calculateBond_currentYield]
    norm_num [couponPaymentOf, dtoDeepDiscount]
  refine ⟨dtoDeepDiscount_valid, by norm_num [dtoDeepDiscount], rfl, hy, hc, ?_⟩
  rw [hy, hc]
  norm_num

/-- **C2 (amended).** For every valid input with no yieldToMaturity
supplied, the directional properties hold under the additional proviso
`annualCoupon × yearsToMaturity < 2 × marketPrice` (forced by the
counterexample): then a discount bond's computed YTM strictly exceeds the
current yield, and a premium bond's computed YTM is strictly below it. -/
theorem C2_direction_amended (d : BondCalculationDto) (h : ValidDto d)
    (hn : d.yieldToMaturity = none) :
    (d.marketPrice < d.faceValue ∧
        annualCouponOf d * d.yearsToMaturity < 2 * d.marketPrice →
      (V1.calculateBond d).yieldToMaturity > (V1.calculateBond d).currentYield) ∧
    (d.faceValue < d.marketPrice ∧
        annualCouponOf d * d.yearsToMaturity < 2 * d.marketPrice →
      (V1.calculateBond d).yieldToMaturity < (V1.calculateBond d).currentYield) := by
  have hP := h.marketPrice_pos
  have hY := h.years_pos
  have hF := h.faceValue_pos
  have hf0 : d.couponFrequency ≠ 0 := ne_of_gt h.freq_pos
  have hP0 : d.marketPrice ≠ 0 := ne_of_gt hP
  have hY0 : d.yearsToMaturity ≠ 0 := ne_of_gt hY
  have hFP : 0 < d.faceValue + d.marketPrice := by linarith
  have hFP0 : d.faceValue + d.marketPrice ≠ 0 := ne_of_gt hFP
  have key : (V1.calculateBond d).yieldToMaturity - (V1.calculateBond d).currentYield =
      (d.faceValue - d.marketPrice) *
          (2 * d.marketPrice - annualCouponOf d * d.yearsToMaturity) * 100 /
        (d.yearsToMaturity * d.marketPrice * (d.faceValue + d.marketPrice)) := by
    rw [V1.calculateBond_ytm_of_none hn, V1.calculateBond_currentYield]
    simp only [V1.calculateYTM, annualCouponOf, couponPaymentOf]
    field_simp
    ring
  have hden : 0 < d.yearsToMaturity * d.marketPrice * (d.faceValue + d.marketPrice) := by
    positivity
  constructor
  · rintro ⟨h1, h2⟩
    have hnum : 0 < (d.faceValue - d.marketPrice) *
        (2 * d.marketPrice - annualCouponOf d * d.yearsToMaturity) * 100 := by
      have := mul_pos (sub_pos.mpr h1) (sub_pos.mpr h2)
      linarith
    have hq := div_pos hnum hden
    rw [← key] at hq
    linarith
  · rintro ⟨h1, h2⟩
    have hnum : (d.faceValue - d.marketPrice) *
        (2 * d.marketPrice - annualCouponOf d * d.yearsToMaturity) * 100 < 0 := by
      have := mul_neg_of_neg_of_pos (sub_neg.mpr h1) (sub_pos.mpr h2)
      linarith
    have hq := div_neg_of_neg_of_pos hnum hden
    rw [← key] at hq
    linarith

theorem C2_direction_amended_witness :
    (dtoDiscount.marketPrice < dtoDiscount.faceValue ∧
        annualCouponOf dtoDiscount * dtoDiscount.yearsToMaturity <
          2 * dtoDiscount.marketPrice) ∧
    (V1.calculateBond dtoDiscount).yieldToMaturity >
      (V1.calculateBond dtoDiscount).currentYield :=
  have hside : dtoDiscount.marketPrice < dtoDiscount.faceValue ∧
      annualCouponOf dtoDiscount * dtoDiscount.yearsToMaturity <
        2 * dtoDiscount.marketPrice := by
    constructor
    · norm_num [dtoDiscount]
    · norm_num [annualCouponOf, couponPaymentOf, dtoDiscount]
  ⟨hside, (C2_direction_amended dtoDiscount dtoDiscount_valid rfl).1 hside⟩

/-- **C6.** For every valid input, in the second revision's present-value
cashflow list: the list is nonempty; every element except the last has
nominal amount `couponPayment` and type `coupon`; exactly the final
element has amount `couponPayment + faceValue` and type `principal`; and
each element at index `i` (period `i + 1`) has
`presentValue = amount / (1 + periodicYield) ^ (i + 1)`, where
`periodicYield` is the result's `yieldToMaturity` as a fraction
(percent / 100) divided by `couponFrequency`. -/
theorem C6_cashflow_amounts_and_pv (d : BondCalculationDto) (h : ValidDto d) :
    1 ≤ (V2.calculateBond d).cashflows.length ∧
    (∀ i, ∀ hi : i < (V2.calculateBond d).cashflows.length,
      (((V2.calculateBond d).cashflows.get ⟨i, hi⟩).presentValue =
        ((V2.calculateBond d).cashflows.get ⟨i, hi⟩).amount /
          (1 + (V2.calculateBond d).yieldToMaturity / 100 / d.couponFrequency) ^ (i + 1)) ∧
      (i + 1 < (V2.calculateBond d).cashflows.length →
        ((V2.calculateBond d).cashflows.get ⟨i, hi⟩).type = V2.CashflowType.coupon ∧
        ((V2.calculateBond d).cashflows.get ⟨i, hi⟩).amount = couponPaymentOf d) ∧
      (i + 1 = (V2.calculateBond d).cashflows.length →
        ((V2.calculateBond d).cashflows.get ⟨i, hi⟩).type = V2.CashflowType.principal ∧
        ((V2.calculateBond d).cashflows.get ⟨i, hi⟩).amount =
          couponPaymentOf d + d.faceValue)) := by
  have hlen : (V2.calculateBond d).cashflows.length = totalPeriodsOf d := by
    rw [V2.calculateBondV2_cashflows, V2.cashflows_length]
  have hbase : 1 + (V2.calculateBond d).yieldToMaturity / 100 / d.couponFrequency =
      1 + V2.yieldToMaturityFrac d / d.couponFrequency := by
    rw [V2.calculateBond_ytm]
    ring
  refine ⟨by rw [hlen]; exact h.totalPeriods_pos, ?_⟩
  intro i hi
  have hi2 : i < (V2.generateCashflows d.faceValue (couponPaymentOf d) (totalPeriodsOf d)
      (V2.yieldToMaturityFrac d / d.couponFrequency) d.couponFrequency).length := by
    rwa [V2.calculateBondV2_cashflows] at hi
  have hget : (V2.calculateBond d).cashflows.get ⟨i, hi⟩ =
      (V2.generateCashflows d.faceValue (couponPaymentOf d) (totalPeriodsOf d)
        (V2.yieldToMaturityFrac d / d.couponFrequency) d.couponFrequency).get ⟨i, hi2⟩ := rfl
  rw [hget, V2.cashflows_get]
  by_cases hlast : 1 + i = totalPeriodsOf d
  · rw [if_pos hlast]
    refine ⟨?_, ?_, ?_⟩
    · rw [hbase]
      simp [Nat.add_comm]
    · intro hcontr
      rw [hlen] at hcontr
      omega
    · intro _
      exact ⟨rfl, rfl⟩
  · rw [if_neg hlast]
    refine ⟨?_, ?_, ?_⟩
    · rw [hbase]
      simp [Nat.add_comm]
    · intro _
      exact ⟨rfl, rfl⟩
    · intro hcontr
      rw [hlen] at hcontr
      omega

theorem C6_cashflow_amounts_and_pv_witness :
    1 ≤ (V2.calculateBond dtoDiscount).cashflows.length ∧
    (∀ i, ∀ hi : i < (V2.calculateBond dtoDiscount).cashflows.length,
      (((V2.calculateBond dtoDiscount).cashflows.get ⟨i, hi⟩).presentValue =
        ((V2.calculateBond dtoDiscount).cashflows.get ⟨i, hi⟩).amount /
          (1 + (V2.calculateBond dtoDiscount).yieldToMaturity / 100 /
            dtoDiscount.couponFrequency) ^ (i + 1)) ∧
      (i + 1 < (V2.calculateBond dtoDiscount).cashflows.length →
        ((V2.calculateBond dtoDiscount).cashflows.get ⟨i, hi⟩).type =
          V2.CashflowType.coupon ∧
        ((V2.calculateBond dtoDiscount).cashflows.get ⟨i, hi⟩).amount =
          couponPaymentOf dtoDiscount) ∧
      (i + 1 = (V2.calculateBond dtoDiscount).cashflows.length →
        ((V2.calculateBond dtoDiscount).cashflows.get ⟨i, hi⟩).type =
          V2.CashflowType.principal ∧
        ((V2.calculateBond dtoDiscount).cashflows.get ⟨i, hi⟩).amount =
          couponPaymentOf dtoDiscount + dtoDiscount.faceValue)) :=
  C6_cashflow_amounts_and_pv dtoDiscount dtoDiscount_valid

/-- A valid input whose computed periodic yield is exactly `−1`, making the
discount base `1 + periodicYield` zero. -/
def dtoDegenerate : BondCalculationDto := ⟨1000, 1, 3020, 1, 1, none⟩

theorem dtoDegenerate_valid : ValidDto dtoDegenerate := by
  refine ⟨by norm_num [dtoDegenerate], by norm_num [dtoDegenerate],
    by norm_num [dtoDegenerate], by norm_num [dtoDegenerate],
    by norm_num [dtoDegenerate], by norm_num [dtoDegenerate],
    by norm_num [dtoDegenerate], ?_⟩
  intro y hy
  exact absurd hy (by simp [dtoDegenerate])

/-- **C9 (counterexample).** At the valid input `faceValue = 1000,
couponRate = 1, marketPrice = 3020, yearsToMaturity = 1,
couponFrequency = 1` with no YTM supplied, the computed periodic yield is
`−1`, so the discount base `1 + periodicYield` — a divisor of every
present-value computation — is zero: under rational semantics every
`presentValue` collapses to `0` (in JavaScript, to `Infinity`). -/
theorem C9_discount_base_counterexample :
    ValidDto dtoDegenerate ∧
    dtoDegenerate.yieldToMaturity = none ∧
    1 + V2.periodicYtmOf dtoDegenerate = 0 ∧
    (V2.calculateBond dtoDegenerate).cashflows.map (fun c => c.presentValue) = [0] := by
  have hfrac : V2.yieldToMaturityFrac dtoDegenerate = -1 := by
    simp only [V2.yieldToMaturityFrac, V2.calculateYTM]
    norm_num [dtoDegenerate]
  have hTP : totalPeriodsOf dtoDegenerate = 1 := by
    rw [totalPeriodsOf]
    norm_num [dtoDegenerate]
  refine ⟨dtoDegenerate_valid, rfl, ?_, ?_⟩
  · rw [V2.periodicYtmOf, hfrac]
    norm_num [dtoDegenerate]
  · rw [V2.calculateBondV2_cashflows, hfrac, hTP]
    simp only [V2.generateCashflows, V2.cashflowsFrom_eq_map]
    norm_num [List.range_succ, dtoDegenerate]

/-- **C9 (amended).** For every valid input, `calculateBond` evaluates
totally and every divisor except possibly the discount base is nonzero:
`couponFrequency`, `marketPrice`, `yearsToMaturity` and
`faceValue + marketPrice` are all nonzero, and the schedule loop runs at
least 1 and at most 1200 iterations.  The discount base
`1 + periodicYield` is guaranteed nonzero when a `yieldToMaturity` is
supplied; with a computed YTM it can be zero (counterexample), though even
then the total-rational semantics still produces a result. -/
theorem C9_totality_amended (d : BondCalculationDto) (h : ValidDto d) :
    d.couponFrequency ≠ 0 ∧
    d.marketPrice ≠ 0 ∧
    d.yearsToMaturity ≠ 0 ∧
    d.faceValue + d.marketPrice ≠ 0 ∧
    1 ≤ totalPeriodsOf d ∧
    totalPeriodsOf d ≤ 1200 ∧
    (∀ y, d.yieldToMaturity = some y → 1 + V2.periodicYtmOf d ≠ 0) := by
  have hP := h.marketPrice_pos
  have hY := h.years_pos
  have hF := h.faceValue_pos
  have hfp := h.freq_pos
  refine ⟨ne_of_gt hfp, ne_of_gt hP, ne_of_gt hY, ne_of_gt (by linarith), ?_, ?_, ?_⟩
  · exact h.totalPeriods_pos
  · have hyf : d.yearsToMaturity * d.couponFrequency ≤ 1200 := by
      have h1 : d.yearsToMaturity ≤ 100 := h.2.2.2.2.2.1
      have h2 : d.couponFrequency ≤ 12 := h.freq_le
      nlinarith
    have hceil : ⌈d.yearsToMaturity * d.couponFrequency⌉ ≤ (1200 : ℤ) :=
      Int.ceil_le.mpr (by exact_mod_cast hyf)
    rw [totalPeriodsOf]
    omega
  · intro y hy
    have hy1 : 1 / 100 ≤ y := (h.2.2.2.2.2.2.2 y hy).1
    have hypos : 0 < y := lt_of_lt_of_le (by norm_num) hy1
    have hy0 : y ≠ 0 := ne_of_gt hypos
    rw [V2.periodicYtmOf]
    simp only [V2.yieldToMaturityFrac, hy, if_neg hy0]
    have hpos : 0 < y / 100 / d.couponFrequency :=
      div_pos (div_pos hypos (by norm_num)) hfp
    have : (0 : ℚ) < 1 + y / 100 / d.couponFrequency := by linarith
    exact ne_of_gt this

theorem C9_totality_amended_witness :
    dtoSupplied.couponFrequency ≠ 0 ∧
    dtoSupplied.marketPrice ≠ 0 ∧
    dtoSupplied.yearsToMaturity ≠ 0 ∧
    dtoSupplied.faceValue + dtoSupplied.marketPrice ≠ 0 ∧
    1 ≤ totalPeriodsOf dtoSupplied ∧
    totalPeriodsOf dtoSupplied ≤ 1200 ∧
    (∀ y, dtoSupplied.yieldToMaturity = some y →
      1 + V2.periodicYtmOf dtoSupplied ≠ 0) :=
  C9_totality_amended dtoSupplied dtoSupplied_valid

/-- **C10.** The two `BondsService` revisions are observationally
equivalent on their shared outputs: for every valid input they return the
same `currentYield`, the same `yieldToMaturity` (supplied or computed,
under exact arithmetic), the same `totalInterest` and the same `status`,
and row by row the two date-schedule generators produce the same
`(period, couponPayment, cumulativeInterest, remainingPrincipal)`
sequences. -/
theorem C10_variants_equivalent (d : BondCalculationDto) (h : ValidDto d) :
    (V1.calculateBond d).currentYield = (V2.calculateBond d).currentYield ∧
    (V1.calculateBond d).yieldToMaturity = (V2.calculateBond d).yieldToMaturity ∧
    (V1.calculateBond d).totalInterest = (V2.calculateBond d).totalInterest ∧
    (V1.calculateBond d).status = (V2.calculateBond d).status ∧
    (V1.calculateBond d).cashflows.map
        (fun r => (r.period, r.couponPayment, r.cumulativeInterest, r.remainingPrincipal)) =
      (V2.generateCashflowSchedule d).map
        (fun r => (r.period, r.couponPayment, r.cumulativeInterest, r.remainingPrincipal)) := by
  have hytm : (V1.calculateBond d).yieldToMaturity =
      (V2.calculateBond d).yieldToMaturity := by
    rw [V2.calculateBond_ytm]
    cases hyo : d.yieldToMaturity with
    | none =>
      rw [V1.calculateBond_ytm_of_none hyo]
      simp only [V2.yieldToMaturityFrac, hyo, V1.calculateYTM, V2.calculateYTM]
      ring
    | some y =>
      have hy1 : 1 / 100 ≤ y := (h.2.2.2.2.2.2.2 y hyo).1
      have hy0 : y ≠ 0 := ne_of_gt (lt_of_lt_of_le (by norm_num) hy1)
      rw [V1.calculateBond_ytm_of_some hyo hy0]
      simp only [V2.yieldToMaturityFrac, hyo, if_neg hy0]
      ring
  have hsched : (V1.calculateBond d).cashflows.map
        (fun r => (r.period, r.couponPayment, r.cumulativeInterest, r.remainingPrincipal)) =
      (V2.generateCashflowSchedule d).map
        (fun r => (r.period, r.couponPayment, r.cumulativeInterest, r.remainingPrincipal)) := by
    rw [V1.calculateBond_cashflows]
    simp only [V1.generateCashflowSchedule, V1.scheduleFrom_eq_map,
      V2.generateCashflowSchedule, V2.scheduleFromV2_eq_map, List.map_map]
    rfl
  exact ⟨rfl, hytm, rfl, rfl, hsched⟩

theorem C10_variants_equivalent_witness :
    (V1.calculateBond dtoPar).currentYield = (V2.calculateBond dtoPar).currentYield ∧
    (V1.calculateBond dtoPar).yieldToMaturity = (V2.calculateBond dtoPar).yieldToMaturity ∧
    (V1.calculateBond dtoPar).totalInterest = (V2.calculateBond dtoPar).totalInterest ∧
    (V1.calculateBond dtoPar).status = (V2.calculateBond dtoPar).status ∧
    (V1.calculateBond dtoPar).cashflows.map
        (fun r => (r.period, r.couponPayment, r.cumulativeInterest, r.remainingPrincipal)) =
      (V2.generateCashflowSchedule dtoPar).map
        (fun r => (r.period, r.couponPayment, r.cumulativeInterest, r.remainingPrincipal)) :=
  C10_variants_equivalent dtoPar dtoPar_valid
